import Mathlib

/-
Verification development for the ValueBooks email system, V2 engine
(src/smart_mailer_v2.py).  The decision core — `DailyVolumeCalculator`,
`SmartTargetingEngine` — is embedded shallowly:

* Python floats are modelled as exact rationals (ℚ); where IEEE double
  rounding is observable, a double-faithful variant (`fl53`,
  `calculate_budget_float`) models the 53-bit rounding of each operation;
* Python ints are modelled as ℤ; `int(x)` truncation toward zero is `pyInt`;
* `datetime` values are modelled as integer day numbers, so that
  `(a - b).days` becomes plain subtraction;
* the `content_elements` dictionary (display-only prompt material) is not
  modelled: no decision rule reads it;
* `list.sort(key=priority, reverse=True)` is a stable descending sort, whose
  output is uniquely determined; it is embedded as `sort_desc`, a stable
  insertion sort by descending `priority_score`.
-/

/-- Email category tag carried by each `EmailType` member: 負債 (debt) /
資産 (credit) / 中立 (neutral). -/
inductive Category where
  | debt
  | credit
  | neutral
deriving DecidableEq

/-- The fixed enumeration `EmailType` of smart_mailer_v2.py. -/
inductive EmailType where
  | URGENT_KAITORI
  | NORMAL_KAITORI
  | GIFT_POINTS
  | GIFT_INFO
  | NEWS_STORY
  | THANK_YOU
  | PURCHASE_PROMO
  | SKIP
deriving DecidableEq

/-- `EmailType.category` as declared in the enum members. -/
def EmailType.category : EmailType → Category
  | .URGENT_KAITORI => .debt
  | .NORMAL_KAITORI => .debt
  | .GIFT_POINTS => .credit
  | .GIFT_INFO => .credit
  | .NEWS_STORY => .credit
  | .THANK_YOU => .credit
  | .PURCHASE_PROMO => .neutral
  | .SKIP => .neutral

/-- `EmailType.balance_impact` as declared in the enum members. -/
def EmailType.balance_impact : EmailType → ℤ
  | .URGENT_KAITORI => -15
  | .NORMAL_KAITORI => -8
  | .GIFT_POINTS => 20
  | .GIFT_INFO => 10
  | .NEWS_STORY => 5
  | .THANK_YOU => 12
  | .PURCHASE_PROMO => -3
  | .SKIP => 0

/-- The `QualityTier` enumeration. -/
inductive QualityTier where
  | A
  | B
  | C
  | D
deriving DecidableEq

/-- `QualityTier.priority_weight` as declared in the enum members. -/
def QualityTier.priority_weight : QualityTier → ℚ
  | .A => 1.0
  | .B => 0.8
  | .C => 0.4
  | .D => 0.0

/-- `WarehouseContext` dataclass. -/
structure WarehouseContext where
  backlog_boxes : ℤ
  backlog_books : ℤ
  capacity_usage : ℚ
  emergency_level : ℤ
  slack_days : List String
  effective_capacity : ℤ
deriving DecidableEq

/-- `WarehouseContext.is_emergency`: `emergency_level >= 4`. -/
def WarehouseContext.is_emergency (w : WarehouseContext) : Bool :=
  decide (4 ≤ w.emergency_level)

/-- `WarehouseContext.is_critical`: `emergency_level == 5`. -/
def WarehouseContext.is_critical (w : WarehouseContext) : Bool :=
  decide (w.emergency_level = 5)

/-- `WarehouseContext.is_relaxed`: `emergency_level <= 2`. -/
def WarehouseContext.is_relaxed (w : WarehouseContext) : Bool :=
  decide (w.emergency_level ≤ 2)

/-- `CustomerProfile` dataclass; the two `datetime` fields and
`days_since_last_email` are integer day counts. -/
structure CustomerProfile where
  customer_id : String
  name : String
  email : String
  rank : String
  total_buyback_count : ℤ
  total_buyback_amount : ℤ
  total_purchase_count : ℤ
  total_purchase_amount : ℤ
  activity_type : String
  genre : String
  engagement_balance : ℤ
  quality_tier : QualityTier
  last_solicitation : ℤ
  last_gift : ℤ
  rejection_rate : ℚ
  days_since_last_email : ℤ
  last_email_type : String
  open_rate : ℚ
  response_rate : ℚ
deriving DecidableEq

/-- `EmailDecision` dataclass (without the display-only `content_elements`). -/
structure EmailDecision where
  customer : CustomerProfile
  email_type : EmailType
  priority_score : ℚ
  reason : String
  balance_after : ℤ
deriving DecidableEq

/-- The budget dictionary returned by `DailyVolumeCalculator.calculate_budget`
(without the display-only `calculation` string). -/
structure Budget where
  total_budget : ℤ
  debt_budget : ℤ
  credit_budget : ℤ
  capacity_factor : ℚ
  emergency_multiplier : ℚ
  emergency_level : ℤ
deriving DecidableEq

/-- The `email_budget_formula` configuration section, with the multiplier
table keyed by emergency level. -/
structure BudgetConfig where
  base_daily_emails : ℚ
  emergency_multipliers : List (ℤ × ℚ)
  max_daily_emails : ℚ
  min_daily_emails : ℚ

/-- `multipliers.get(str(level), 1.0)`. -/
def lookup_multiplier (ms : List (ℤ × ℚ)) (lvl : ℤ) : ℚ :=
  match ms.lookup lvl with
  | some m => m
  | none => 1.0

/-- Python `int(x)`: truncation toward zero. -/
def pyInt (q : ℚ) : ℤ :=
  if 0 ≤ q then ⌊q⌋ else ⌈q⌉

/-- The debt-ratio selection inside `calculate_budget`. -/
def debt_ratio (w : WarehouseContext) : ℚ :=
  if w.is_critical then 0.80
  else if w.is_emergency then 0.60
  else if w.is_relaxed then 0.20
  else 0.40

/-- `DailyVolumeCalculator.calculate_budget`, with the float arithmetic of
lines 152-177 modelled exactly over ℚ.  Where the 53-bit double rounding of
an intermediate product is observable (the critical scenario's
`credit_budget`), the IEEE-faithful variant `calculate_budget_float` below
is the authority. -/
def calculate_budget (w : WarehouseContext) (cfg : BudgetConfig) : Budget :=
  let base := cfg.base_daily_emails
  let capacity_factor := 1 - w.capacity_usage
  let emergency_mult := lookup_multiplier cfg.emergency_multipliers w.emergency_level
  let raw_budget := base * capacity_factor * emergency_mult
  let budget := pyInt (min (max raw_budget cfg.min_daily_emails) cfg.max_daily_emails)
  let r := debt_ratio w
  ⟨budget, pyInt ((budget : ℚ) * r), pyInt ((budget : ℚ) * (1 - r)),
    capacity_factor, emergency_mult, w.emergency_level⟩

/-- The default configuration values documented in the source
(`base_daily_emails` 500, multipliers 0.5/0.8/1.0/1.5/2.5, clamps 0 and 2000). -/
def default_config : BudgetConfig :=
  ⟨500, [(1, 0.5), (2, 0.8), (3, 1.0), (4, 1.5), (5, 2.5)], 2000, 0⟩

/-- `SmartTargetingEngine.needs_credit_first`. -/
def needs_credit_first (today : ℤ) (c : CustomerProfile) : Bool × String :=
  if c.engagement_balance < 0 then
    (true, "バランス(" ++ toString c.engagement_balance ++ ")がマイナス: 先にプレゼントを")
  else
    let days_since_gift := today - c.last_gift
    if 60 < days_since_gift then
      (true, "最終プレゼントから" ++ toString days_since_gift ++ "日: 感謝を伝える時")
    else
      (false, "バランス良好")

/-- `SmartTargetingEngine.is_eligible_for_solicitation`. -/
def is_eligible_for_solicitation (w : WarehouseContext) (today : ℤ)
    (c : CustomerProfile) : Bool × String :=
  if c.quality_tier = QualityTier.D then
    if w.is_critical then (true, "超緊急時のため例外的に送信対象")
    else (false, "品質ティアD: 基本的に送信しない")
  else if c.quality_tier = QualityTier.C then
    if w.is_emergency then (true, "緊急時のため送信対象")
    else (false, "品質ティアC: 緊急時以外は送信しない")
  else if c.engagement_balance < -20 then
    (false, "関係性バランス(" ++ toString c.engagement_balance ++ ")が低すぎ")
  else
    let days_since_solicitation := today - c.last_solicitation
    if days_since_solicitation < 14 then
      if w.is_critical then (true, "超緊急時のため間隔短くても送信")
      else (false, "最終依頼から" ++ toString days_since_solicitation ++ "日: 間隔が短い")
    else
      (true, "送信可能")

/-- `SmartTargetingEngine._select_credit_email`. -/
def select_credit_email (today : ℤ) (c : CustomerProfile) : EmailType :=
  if c.engagement_balance < -15 then EmailType.GIFT_POINTS
  else if 90 < today - c.last_gift then EmailType.THANK_YOU
  else if c.activity_type = "購入メイン" then EmailType.GIFT_INFO
  else EmailType.NEWS_STORY

/-- `SmartTargetingEngine.determine_email_type`. -/
def determine_email_type (w : WarehouseContext) (today : ℤ)
    (c : CustomerProfile) : EmailType × String :=
  if c.days_since_last_email < 7 then
    (EmailType.SKIP, "最終送信から" ++ toString c.days_since_last_email ++ "日: 間隔が短い")
  else
    let nc := needs_credit_first today c
    if nc.1 ∧ ¬ w.is_critical then
      (select_credit_email today c, nc.2)
    else
      let el := is_eligible_for_solicitation w today c
      if w.is_emergency ∧ (c.activity_type = "買取メイン" ∨ c.activity_type = "両方活発") ∧ el.1 then
        if w.is_critical then (EmailType.URGENT_KAITORI, "超緊急 + " ++ el.2)
        else (EmailType.URGENT_KAITORI, "緊急 + " ++ el.2)
      else if c.activity_type = "購入メイン" then
        (EmailType.PURCHASE_PROMO, "購入傾向の顧客")
      else if el.1 ∧ 0 < w.slack_days.length then
        (EmailType.NORMAL_KAITORI, "閑散期のため買取促進")
      else
        (select_credit_email today c, "関係性維持のため情報提供")

/-- Python `round(x, 2)`: round to two decimal places. -/
def round2 (q : ℚ) : ℚ :=
  (round (q * 100) : ℚ) / 100

/-- `SmartTargetingEngine.calculate_priority_score`, with the incremental
accumulation of the source. -/
def calculate_priority_score (c : CustomerProfile) : ℚ :=
  let score : ℚ := 0
  let balance_score := ((c.engagement_balance : ℚ) + 50) / 100 * 30
  let score := score + max 0 (min 30 balance_score)
  let score := score + c.quality_tier.priority_weight * 25
  let score := score + min ((c.days_since_last_email : ℚ) / 60) 1.0 * 20
  let score := score + (c.open_rate * 0.5 + c.response_rate * 0.5) * 15
  let ltv := (c.total_buyback_amount : ℚ) + (c.total_purchase_amount : ℚ)
  let score := score + min (ltv / 500000) 1.0 * 10
  round2 score

/-- The per-customer decision construction at the head of
`SmartTargetingEngine.build_priority_queue` (classification, tier weighting,
emergency debt boost, projected balance). -/
def mkDecision (w : WarehouseContext) (today : ℤ) (c : CustomerProfile) : EmailDecision :=
  let r := determine_email_type w today c
  if r.1 = EmailType.SKIP then
    ⟨c, r.1, 0, r.2, c.engagement_balance⟩
  else
    let priority := calculate_priority_score c * c.quality_tier.priority_weight
    let priority := if w.is_emergency ∧ r.1.category = Category.debt then priority * 1.3 else priority
    ⟨c, r.1, priority, r.2, c.engagement_balance + r.1.balance_impact⟩

/-- Demotion of an over-budget debt-category decision inside
`build_priority_queue`: only `email_type` and `reason` are rewritten. -/
def demote_debt (d : EmailDecision) : EmailDecision :=
  ⟨d.customer, EmailType.SKIP, d.priority_score, "バジェット超過（負債系）", d.balance_after⟩

/-- Demotion of an over-budget credit-category decision inside
`build_priority_queue`: only `email_type` and `reason` are rewritten. -/
def demote_credit (d : EmailDecision) : EmailDecision :=
  ⟨d.customer, EmailType.SKIP, d.priority_score, "バジェット超過（資産系）", d.balance_after⟩

/-- The budget-filtering loop at the tail of
`SmartTargetingEngine.build_priority_queue`, with its running counters
`debt_count` and `credit_count`. -/
def filter_by_budget (b : Budget) : ℤ → ℤ → List EmailDecision → List EmailDecision
  | _, _, [] => []
  | dc, cc, d :: rest =>
    if d.email_type = EmailType.SKIP then
      d :: filter_by_budget b dc cc rest
    else if d.email_type.category = Category.debt then
      if dc < b.debt_budget then d :: filter_by_budget b (dc + 1) cc rest
      else demote_debt d :: filter_by_budget b dc cc rest
    else if d.email_type.category = Category.credit then
      if cc < b.credit_budget then d :: filter_by_budget b dc (cc + 1) rest
      else demote_credit d :: filter_by_budget b dc cc rest
    else
      if dc + cc < b.total_budget then d :: filter_by_budget b dc cc rest
      else filter_by_budget b dc cc rest

/-- Stable insertion (descending by `priority_score`): the new element goes
after every already-placed element of equal or higher score. -/
def insert_desc (x : EmailDecision) : List EmailDecision → List EmailDecision
  | [] => [x]
  | y :: ys =>
    if y.priority_score < x.priority_score then x :: y :: ys
    else y :: insert_desc x ys

/-- `decisions.sort(key=lambda x: x.priority_score, reverse=True)`: the
stable descending sort (its output is uniquely determined by stability). -/
def sort_desc (l : List EmailDecision) : List EmailDecision :=
  l.foldl (fun acc x => insert_desc x acc) []

/-- `SmartTargetingEngine.build_priority_queue`. -/
def build_priority_queue (w : WarehouseContext) (today : ℤ)
    (customers : List CustomerProfile) (budget : Budget) : List EmailDecision :=
  filter_by_budget budget 0 0 (sort_desc (customers.map (mkDecision w today)))

/- ------------------------------------------------------------------
   C1: budget conservation
   ------------------------------------------------------------------ -/

/-- A critical-level warehouse with no capacity usage. -/
def C1w : WarehouseContext := ⟨0, 0, 0, 5, [], 0⟩

/-- A configuration with base 7 and multiplier 1 at level 5. -/
def C1cfg : BudgetConfig := ⟨7, [(5, 1.0)], 2000, 0⟩

/- ------------------------------------------------------------------
   C2: total-budget formula and clamping
   ------------------------------------------------------------------ -/

/-- The totalBudget formula as the spec words it (claim C2): round the raw
budget first, then clamp between the configured min and max. -/
def spec_total_budget (w : WarehouseContext) (cfg : BudgetConfig) : ℚ :=
  min (max ((round (cfg.base_daily_emails * (1 - w.capacity_usage) *
    lookup_multiplier cfg.emergency_multipliers w.emergency_level) : ℤ) : ℚ)
    cfg.min_daily_emails) cfg.max_daily_emails

/-- A level-3 warehouse at 50% capacity. -/
def C2w : WarehouseContext := ⟨0, 0, 0.5, 3, [], 0⟩

/-- Base 3, empty multiplier table (multiplier defaults to 1), clamps 0/2000. -/
def C2cfg : BudgetConfig := ⟨3, [], 2000, 0⟩

/- ------------------------------------------------------------------
   C7: critical scenario, under IEEE-double-faithful arithmetic
   ------------------------------------------------------------------ -/

/-- Round-to-nearest on the integer grid with ties to even, as IEEE 754
prescribes (Mathlib's `round` alone would break ties upward). -/
def roundTiesEven (x : ℚ) : ℤ :=
  if Int.fract x = 1 / 2 then (if ⌊x⌋ % 2 = 0 then ⌊x⌋ else ⌊x⌋ + 1) else round x

/-- IEEE-754 double rounding of a rational: round to 53 significant bits,
nearest, ties to even.  Faithful to binary64 for the normal range; overflow
and subnormals are not modelled (every value in this development lies well
inside the normal range). -/
def fl53 (q : ℚ) : ℚ :=
  if q = 0 then 0
  else (roundTiesEven (q * 2 ^ (52 - Int.log 2 |q|)) : ℚ) / 2 ^ (52 - Int.log 2 |q|)

/-- `DailyVolumeCalculator.calculate_budget` under IEEE-double semantics:
identical to `calculate_budget` except that every Python float operation
(the subtractions and multiplications of lines 152-177) is followed by the
double rounding `fl53`, and the float literal `debt_ratio` is itself a
double.  Comparisons (`min`/`max`) and `int()` truncation are exact in
floating point and stay as in the exact model. -/
def calculate_budget_float (w : WarehouseContext) (cfg : BudgetConfig) : Budget :=
  let base := cfg.base_daily_emails
  let capacity_factor := fl53 (1 - w.capacity_usage)
  let emergency_mult := lookup_multiplier cfg.emergency_multipliers w.emergency_level
  let raw_budget := fl53 (fl53 (base * capacity_factor) * emergency_mult)
  let budget := pyInt (min (max raw_budget cfg.min_daily_emails) cfg.max_daily_emails)
  let r := fl53 (debt_ratio w)
  ⟨budget, pyInt (fl53 ((budget : ℚ) * r)), pyInt (fl53 ((budget : ℚ) * fl53 (1 - r))),
    capacity_factor, emergency_mult, w.emergency_level⟩

/-- The default configuration with its multiplier entries as the doubles of
0.5, 0.8, 1.0, 1.5, 2.5 (JSON parsing yields doubles). -/
def default_config_float : BudgetConfig :=
  ⟨500, [(1, fl53 (5 / 10)), (2, fl53 (8 / 10)), (3, fl53 1), (4, fl53 (15 / 10)),
    (5, fl53 (25 / 10))], 2000, 0⟩

/-- The critical scenario warehouse: capacity usage the double nearest 0.12,
emergency level 5. -/
def C7wf : WarehouseContext := ⟨0, 0, fl53 (12 / 100), 5, [], 0⟩

/-- A level-3 (non-critical) warehouse used by several witnesses. -/
def w_normal : WarehouseContext := ⟨120, 3000, 0.5, 3, [], 360⟩

/-- A tier-D customer: buyback-active, long dormant, positive balance. -/
def c_tierD : CustomerProfile :=
  ⟨"C900", "山本", "d@example.com", "gold", 9, 90000, 2, 10000, "買取メイン", "文学",
    10, QualityTier.D, 0, 80, 0.1, 30, "買取促進", 0.5, 0.5⟩

/-- A customer with engagement balance −25 and 20 days since last email. -/
def c_neg25 : CustomerProfile :=
  ⟨"C901", "佐藤", "n@example.com", "silver", 4, 40000, 1, 5000, "買取メイン", "歴史",
    -25, QualityTier.A, 0, 80, 0.1, 20, "買取促進", 0.5, 0.5⟩

/- ------------------------------------------------------------------
   C8: priority score formula and bound
   ------------------------------------------------------------------ -/

/-- clamp(x, 0, 1). -/
def clamp01 (x : ℚ) : ℚ := min (max x 0) 1

/-- The priority score as the spec words it (claim C8): a weighted sum of
five normalized sub-scores, rounded to two decimal places. -/
def spec_priority_score (c : CustomerProfile) : ℚ :=
  round2 (clamp01 (((c.engagement_balance : ℚ) + 50) / 100) * 30
    + c.quality_tier.priority_weight * 25
    + min ((c.days_since_last_email : ℚ) / 60) 1.0 * 20
    + (c.open_rate * 0.5 + c.response_rate * 0.5) * 15
    + min (((c.total_buyback_amount : ℚ) + (c.total_purchase_amount : ℚ)) / 500000) 1.0 * 10)

/- ------------------------------------------------------------------
   Allocator infrastructure
   ------------------------------------------------------------------ -/

/-- Number of debt-category decisions in a list (SKIP is neutral, so these
are exactly the admitted, non-SKIP debt decisions). -/
def countDebt : List EmailDecision → ℕ
  | [] => 0
  | d :: l => (if d.email_type.category = Category.debt then 1 else 0) + countDebt l

/-- Number of credit-category decisions in a list. -/
def countCredit : List EmailDecision → ℕ
  | [] => 0
  | d :: l => (if d.email_type.category = Category.credit then 1 else 0) + countCredit l

/- ------------------------------------------------------------------
   Concrete allocation scenario (used by C3, C9, C10 and witnesses)
   ------------------------------------------------------------------ -/

/-- A level-3 warehouse with one slack day. -/
def w_slack : WarehouseContext := ⟨120, 3000, 0.5, 3, ["2025-01-10"], 360⟩

/-- A purchase-main customer classified PURCHASE_PROMO, priority 100. -/
def cP9 : CustomerProfile :=
  ⟨"C902", "鈴木", "p@example.com", "gold", 0, 0, 5, 500000, "購入メイン", "ビジネス",
    50, QualityTier.A, 50, 70, 0.1, 60, "購入促進", 1, 1⟩

/-- A buyback-main customer classified NORMAL_KAITORI, priority 62.5. -/
def cD9 : CustomerProfile :=
  ⟨"C903", "田中", "t@example.com", "gold", 3, 50000, 2, 50000, "買取メイン", "文学",
    10, QualityTier.A, 50, 70, 0.1, 30, "買取促進", 0.5, 0.5⟩

/-- A slightly negative-balance customer classified NEWS_STORY, priority 56. -/
def cC9 : CustomerProfile :=
  ⟨"C904", "高橋", "k@example.com", "silver", 1, 0, 1, 0, "買取メイン", "歴史",
    -5, QualityTier.A, 50, 70, 0.1, 30, "ニュース", 0.5, 0.5⟩

/-- Budget with total 2, debt 1, credit 1. -/
def b9 : Budget := ⟨2, 1, 1, 0.5, 1.0, 3⟩

/-- Budget with total 2, debt 0 (forces a debt demotion), credit 1. -/
def b10 : Budget := ⟨2, 0, 1, 0.5, 1.0, 3⟩

/-- Zero budget. -/
def b0 : Budget := ⟨0, 0, 0, 0.5, 1.0, 3⟩

/-- Count of non-SKIP (actually sent) decisions in a list. -/
def countSend : List EmailDecision → ℕ
  | [] => 0
  | d :: l => (if d.email_type ≠ EmailType.SKIP then 1 else 0) + countSend l

/- ------------------------------------------------------------------
   Theorems
   ------------------------------------------------------------------ -/

/- ------------------------------------------------------------------
   Helper lemmas
   ------------------------------------------------------------------ -/

theorem pyInt_eq_floor (q : ℚ) (h : 0 ≤ q) : pyInt q = ⌊q⌋ := by
  simp [pyInt, h]

theorem debt_ratio_nonneg (w : WarehouseContext) : 0 ≤ debt_ratio w := by
  unfold debt_ratio
  split_ifs <;> norm_num

theorem debt_ratio_le_one (w : WarehouseContext) : debt_ratio w ≤ 1 := by
  unfold debt_ratio
  split_ifs <;> norm_num

theorem total_budget_eq (w : WarehouseContext) (cfg : BudgetConfig) :
    (calculate_budget w cfg).total_budget =
      pyInt (min (max (cfg.base_daily_emails * (1 - w.capacity_usage) *
        lookup_multiplier cfg.emergency_multipliers w.emergency_level)
        cfg.min_daily_emails) cfg.max_daily_emails) := rfl

theorem debt_budget_eq (w : WarehouseContext) (cfg : BudgetConfig) :
    (calculate_budget w cfg).debt_budget =
      pyInt (((calculate_budget w cfg).total_budget : ℚ) * debt_ratio w) := rfl

theorem credit_budget_eq (w : WarehouseContext) (cfg : BudgetConfig) :
    (calculate_budget w cfg).credit_budget =
      pyInt (((calculate_budget w cfg).total_budget : ℚ) * (1 - debt_ratio w)) := rfl

theorem C1_eval : calculate_budget C1w C1cfg = ⟨7, 5, 1, 1, 1.0, 5⟩ := by
  norm_num [calculate_budget, C1w, C1cfg, lookup_multiplier, debt_ratio, pyInt,
    WarehouseContext.is_critical, List.lookup, Budget.mk.injEq]

/-- Claim C1 counterexample: at total budget 7 and critical debt ratio 0.80,
the code computes debt 5 and credit 1 by two independent truncations, and
5 + 1 ≠ 7 — conservation fails. -/
theorem C1_counterexample :
    (calculate_budget C1w C1cfg).debt_budget + (calculate_budget C1w C1cfg).credit_budget ≠
      (calculate_budget C1w C1cfg).total_budget := by
  rw [C1_eval]
  decide

/-- Claim C1 (amended): `credit_budget` is a second independent truncation
`int(total * (1 - ratio))`, not `total - debt`; consequently the sum of the
sub-budgets equals `total_budget` or falls short of it by exactly one. -/
theorem C1_budget_near_conservation (w : WarehouseContext) (cfg : BudgetConfig)
    (h : 0 ≤ (calculate_budget w cfg).total_budget) :
    (calculate_budget w cfg).debt_budget =
      pyInt (((calculate_budget w cfg).total_budget : ℚ) * debt_ratio w) ∧
    (calculate_budget w cfg).credit_budget =
      pyInt (((calculate_budget w cfg).total_budget : ℚ) * (1 - debt_ratio w)) ∧
    (calculate_budget w cfg).debt_budget + (calculate_budget w cfg).credit_budget ≤
      (calculate_budget w cfg).total_budget ∧
    (calculate_budget w cfg).total_budget - 1 ≤
      (calculate_budget w cfg).debt_budget + (calculate_budget w cfg).credit_budget := by
  set t := (calculate_budget w cfg).total_budget with ht
  have hr0 : 0 ≤ debt_ratio w := debt_ratio_nonneg w
  have hr1 : debt_ratio w ≤ 1 := debt_ratio_le_one w
  have htq : (0 : ℚ) ≤ (t : ℚ) := by exact_mod_cast h
  have ha : 0 ≤ (t : ℚ) * debt_ratio w := mul_nonneg htq hr0
  have hb : 0 ≤ (t : ℚ) * (1 - debt_ratio w) := mul_nonneg htq (by linarith)
  have hsum : (t : ℚ) * debt_ratio w + (t : ℚ) * (1 - debt_ratio w) = (t : ℚ) := by ring
  have hd : (calculate_budget w cfg).debt_budget = ⌊(t : ℚ) * debt_ratio w⌋ := by
    rw [debt_budget_eq w cfg, ← ht, pyInt_eq_floor _ ha]
  have hc : (calculate_budget w cfg).credit_budget = ⌊(t : ℚ) * (1 - debt_ratio w)⌋ := by
    rw [credit_budget_eq w cfg, ← ht, pyInt_eq_floor _ hb]
  have h1 := Int.floor_le ((t : ℚ) * debt_ratio w)
  have h2 := Int.floor_le ((t : ℚ) * (1 - debt_ratio w))
  have h3 := Int.sub_one_lt_floor ((t : ℚ) * debt_ratio w)
  have h4 := Int.sub_one_lt_floor ((t : ℚ) * (1 - debt_ratio w))
  have hub : ⌊(t : ℚ) * debt_ratio w⌋ + ⌊(t : ℚ) * (1 - debt_ratio w)⌋ ≤ t := by
    have hq : ((⌊(t : ℚ) * debt_ratio w⌋ + ⌊(t : ℚ) * (1 - debt_ratio w)⌋ : ℤ) : ℚ) ≤ (t : ℚ) := by
      push_cast
      linarith
    exact_mod_cast hq
  have hlb : t - 2 < ⌊(t : ℚ) * debt_ratio w⌋ + ⌊(t : ℚ) * (1 - debt_ratio w)⌋ := by
    have hq : ((t - 2 : ℤ) : ℚ) < ((⌊(t : ℚ) * debt_ratio w⌋ + ⌊(t : ℚ) * (1 - debt_ratio w)⌋ : ℤ) : ℚ) := by
      push_cast
      linarith
    exact_mod_cast hq
  refine ⟨debt_budget_eq w cfg, credit_budget_eq w cfg, ?_, ?_⟩
  · rw [hd, hc]
    exact hub
  · rw [hd, hc]
    omega

/-- Witness for `C1_budget_near_conservation` at the concrete input
`C1w`/`C1cfg` (total 7, debt 5, credit 1). -/
theorem C1_witness :
    (calculate_budget C1w C1cfg).debt_budget =
      pyInt (((calculate_budget C1w C1cfg).total_budget : ℚ) * debt_ratio C1w) ∧
    (calculate_budget C1w C1cfg).credit_budget =
      pyInt (((calculate_budget C1w C1cfg).total_budget : ℚ) * (1 - debt_ratio C1w)) ∧
    (calculate_budget C1w C1cfg).debt_budget + (calculate_budget C1w C1cfg).credit_budget ≤
      (calculate_budget C1w C1cfg).total_budget ∧
    (calculate_budget C1w C1cfg).total_budget - 1 ≤
      (calculate_budget C1w C1cfg).debt_budget + (calculate_budget C1w C1cfg).credit_budget :=
  C1_budget_near_conservation C1w C1cfg (by rw [C1_eval]; decide)

/-- Claim C2 counterexample: with base 3, capacity usage 0.5 and multiplier 1,
the raw budget is 1.5; the code truncates (`int`) to 1, while the claimed
round-then-clamp formula gives 2. -/
theorem C2_counterexample :
    ((calculate_budget C2w C2cfg).total_budget : ℚ) ≠ spec_total_budget C2w C2cfg := by
  have h1 : (calculate_budget C2w C2cfg).total_budget = 1 := by
    norm_num [total_budget_eq, C2w, C2cfg, lookup_multiplier, pyInt, List.lookup]
  have h2 : spec_total_budget C2w C2cfg = 2 := by
    norm_num [spec_total_budget, C2w, C2cfg, lookup_multiplier, List.lookup, round_eq]
  rw [h1, h2]
  norm_num

/-- Claim C2 (amended): totalBudget is the truncation `int(...)` of the raw
budget clamped between min and max (truncation, not `round`), and whenever
0 ≤ minDailyEmails ≤ maxDailyEmails it satisfies
0 ≤ totalBudget ≤ maxDailyEmails — for every capacity usage and level. -/
theorem C2_total_budget_truncated_clamp (w : WarehouseContext) (cfg : BudgetConfig)
    (hmin : 0 ≤ cfg.min_daily_emails) (hmm : cfg.min_daily_emails ≤ cfg.max_daily_emails) :
    (calculate_budget w cfg).total_budget =
      pyInt (min (max (cfg.base_daily_emails * (1 - w.capacity_usage) *
        lookup_multiplier cfg.emergency_multipliers w.emergency_level)
        cfg.min_daily_emails) cfg.max_daily_emails) ∧
    0 ≤ (calculate_budget w cfg).total_budget ∧
    ((calculate_budget w cfg).total_budget : ℚ) ≤ cfg.max_daily_emails := by
  set raw := cfg.base_daily_emails * (1 - w.capacity_usage) *
    lookup_multiplier cfg.emergency_multipliers w.emergency_level with hraw
  set q := min (max raw cfg.min_daily_emails) cfg.max_daily_emails with hqdef
  have hq0 : 0 ≤ q := le_min (hmin.trans (le_max_right _ _)) (hmin.trans hmm)
  have hqmax : q ≤ cfg.max_daily_emails := min_le_right _ _
  have hfloor : (calculate_budget w cfg).total_budget = ⌊q⌋ := by
    rw [total_budget_eq, ← hraw, ← hqdef, pyInt_eq_floor _ hq0]
  refine ⟨total_budget_eq w cfg, ?_, ?_⟩
  · rw [hfloor]
    exact Int.le_floor.mpr (by exact_mod_cast hq0)
  · rw [hfloor]
    exact (Int.floor_le q).trans hqmax

/-- Witness for `C2_total_budget_truncated_clamp` at `C2w`/`C2cfg`. -/
theorem C2_witness :
    (calculate_budget C2w C2cfg).total_budget =
      pyInt (min (max (C2cfg.base_daily_emails * (1 - C2w.capacity_usage) *
        lookup_multiplier C2cfg.emergency_multipliers C2w.emergency_level)
        C2cfg.min_daily_emails) C2cfg.max_daily_emails) ∧
    0 ≤ (calculate_budget C2w C2cfg).total_budget ∧
    ((calculate_budget C2w C2cfg).total_budget : ℚ) ≤ C2cfg.max_daily_emails :=
  C2_total_budget_truncated_clamp C2w C2cfg (by norm_num [C2cfg]) (by norm_num [C2cfg])

theorem int_log2_eq (q : ℚ) (e : ℤ) (hq : 0 < q)
    (h1 : ((2 : ℕ) : ℚ) ^ e ≤ q) (h2 : q < ((2 : ℕ) : ℚ) ^ (e + 1)) :
    Int.log 2 q = e := by
  have hle := (Int.zpow_le_iff_le_log one_lt_two hq).mp h1
  have hlt := (Int.lt_zpow_iff_log_lt one_lt_two hq).mp h2
  omega

theorem fl53_of_exp (q : ℚ) (e : ℤ) (hq : 0 < q)
    (h1 : ((2 : ℕ) : ℚ) ^ e ≤ q) (h2 : q < ((2 : ℕ) : ℚ) ^ (e + 1)) :
    fl53 q = (roundTiesEven (q * 2 ^ (52 - e)) : ℚ) / 2 ^ (52 - e) := by
  have habs : |q| = q := abs_of_pos hq
  have hlog : Int.log 2 |q| = e := by
    rw [habs]
    exact int_log2_eq q e hq h1 h2
  rw [fl53, if_neg hq.ne', hlog]

theorem fl53_012 : fl53 (12 / 100 : ℚ) = 1080863910568919 / 9007199254740992 := by
  rw [fl53_of_exp (12 / 100 : ℚ) (-4) (by norm_num) (by norm_num) (by norm_num)]
  norm_num [roundTiesEven, Int.fract, round_eq]

theorem fl53_cf : fl53 (1 - (1080863910568919 / 9007199254740992 : ℚ)) =
    7926335344172073 / 9007199254740992 := by
  rw [fl53_of_exp (1 - (1080863910568919 / 9007199254740992 : ℚ)) (-1)
    (by norm_num) (by norm_num) (by norm_num)]
  norm_num [roundTiesEven, Int.fract, round_eq]

theorem fl53_500cf : fl53 ((500 : ℚ) * (7926335344172073 / 9007199254740992)) = 440 := by
  rw [fl53_of_exp ((500 : ℚ) * (7926335344172073 / 9007199254740992)) 8
    (by norm_num) (by norm_num) (by norm_num)]
  norm_num [roundTiesEven, Int.fract, round_eq]

theorem fl53_25 : fl53 (25 / 10 : ℚ) = 5 / 2 := by
  rw [fl53_of_exp (25 / 10 : ℚ) 1 (by norm_num) (by norm_num) (by norm_num)]
  norm_num [roundTiesEven, Int.fract, round_eq]

theorem fl53_raw : fl53 ((440 : ℚ) * (5 / 2)) = 1100 := by
  rw [fl53_of_exp ((440 : ℚ) * (5 / 2)) 10 (by norm_num) (by norm_num) (by norm_num)]
  norm_num [roundTiesEven, Int.fract, round_eq]

theorem fl53_08 : fl53 (4 / 5 : ℚ) = 3602879701896397 / 4503599627370496 := by
  rw [fl53_of_exp (4 / 5 : ℚ) (-1) (by norm_num) (by norm_num) (by norm_num)]
  norm_num [roundTiesEven, Int.fract, round_eq]

theorem fl53_debt : fl53 ((1100 : ℚ) * (3602879701896397 / 4503599627370496)) = 880 := by
  rw [fl53_of_exp ((1100 : ℚ) * (3602879701896397 / 4503599627370496)) 9
    (by norm_num) (by norm_num) (by norm_num)]
  norm_num [roundTiesEven, Int.fract, round_eq]

theorem fl53_sub : fl53 (1 - (3602879701896397 / 4503599627370496 : ℚ)) =
    900719925474099 / 4503599627370496 := by
  rw [fl53_of_exp (1 - (3602879701896397 / 4503599627370496 : ℚ)) (-3)
    (by norm_num) (by norm_num) (by norm_num)]
  norm_num [roundTiesEven, Int.fract, round_eq]

theorem fl53_credit : fl53 ((1100 : ℚ) * (900719925474099 / 4503599627370496)) =
    7740561859543038 / 35184372088832 := by
  rw [fl53_of_exp ((1100 : ℚ) * (900719925474099 / 4503599627370496)) 7
    (by norm_num) (by norm_num) (by norm_num)]
  norm_num [roundTiesEven, Int.fract, round_eq]

theorem fl53_088 : fl53 (88 / 100 : ℚ) = 7926335344172073 / 9007199254740992 := by
  rw [fl53_of_exp (88 / 100 : ℚ) (-1) (by norm_num) (by norm_num) (by norm_num)]
  norm_num [roundTiesEven, Int.fract, round_eq]

theorem float_ratio_eval : debt_ratio C7wf = 4 / 5 := by
  simp [debt_ratio, C7wf, WarehouseContext.is_critical]
  norm_num

theorem float_mult_eval :
    lookup_multiplier default_config_float.emergency_multipliers C7wf.emergency_level =
      fl53 (25 / 10) := by
  simp [lookup_multiplier, default_config_float, C7wf, List.lookup]

theorem float_budget_eval :
    calculate_budget_float C7wf default_config_float =
      ⟨1100, 880, 219, 7926335344172073 / 9007199254740992, 5 / 2, 5⟩ := by
  simp only [calculate_budget_float]
  rw [show C7wf.capacity_usage = fl53 (12 / 100 : ℚ) from rfl]
  rw [float_mult_eval]
  rw [show default_config_float.base_daily_emails = (500 : ℚ) from rfl]
  rw [show default_config_float.min_daily_emails = (0 : ℚ) from rfl]
  rw [show default_config_float.max_daily_emails = (2000 : ℚ) from rfl]
  rw [float_ratio_eval]
  rw [fl53_012, fl53_cf, fl53_500cf, fl53_25, fl53_raw]
  rw [(by norm_num [pyInt] : pyInt (min (max (1100 : ℚ) 0) 2000) = (1100 : ℤ))]
  rw [fl53_08]
  push_cast
  rw [fl53_debt, fl53_sub, fl53_credit]
  rw [show C7wf.emergency_level = (5 : ℤ) from rfl]
  norm_num [pyInt, Budget.mk.injEq]

/-- Claim C7 counterexample: under IEEE-double-faithful arithmetic the
critical scenario's credit budget is not the claimed 220 — the double
`1 - 0.8` is 0.19999999999999996, `1100 * (1 - 0.8)` rounds to
219.99999999999994, and `int()` truncates to 219. -/
theorem C7_counterexample :
    (calculate_budget_float C7wf default_config_float).credit_budget ≠ 220 := by
  rw [float_budget_eval]
  decide

/-- Claim C7 (amended): for the critical scenario (capacity usage the double
0.12, level 5, base 500, default multiplier table and clamps) under
IEEE-double-faithful arithmetic, the calculator yields capacity factor the
double nearest 0.88, emergency multiplier 2.5, debt ratio 0.80,
total budget 1100, debt budget 880, and credit budget 219 (not 220). -/
theorem C7_float_critical_scenario :
    (calculate_budget_float C7wf default_config_float).total_budget = 1100 ∧
    (calculate_budget_float C7wf default_config_float).debt_budget = 880 ∧
    (calculate_budget_float C7wf default_config_float).credit_budget = 219 ∧
    (calculate_budget_float C7wf default_config_float).capacity_factor = fl53 (88 / 100) ∧
    (calculate_budget_float C7wf default_config_float).emergency_multiplier = 5 / 2 ∧
    debt_ratio C7wf = 0.80 := by
  rw [float_budget_eval, fl53_088, float_ratio_eval]
  norm_num

/- ------------------------------------------------------------------
   C5: tier-D gating
   ------------------------------------------------------------------ -/

theorem select_credit_email_category (today : ℤ) (c : CustomerProfile) :
    (select_credit_email today c).category = Category.credit := by
  unfold select_credit_email
  split_ifs <;> rfl

theorem not_critical_false (w : WarehouseContext) (h : w.emergency_level ≠ 5) :
    w.is_critical = false := by
  simp [WarehouseContext.is_critical, h]

theorem tierD_not_eligible (w : WarehouseContext) (today : ℤ) (c : CustomerProfile)
    (hD : c.quality_tier = QualityTier.D) (hlvl : w.emergency_level ≠ 5) :
    (is_eligible_for_solicitation w today c).1 = false := by
  unfold is_eligible_for_solicitation
  simp [hD, not_critical_false w hlvl]

/-- Claim C5: a tier-D customer under a non-critical warehouse
(emergency level ≠ 5) is never classified into a debt-category email type,
whatever the customer's other fields are. -/
theorem C5_tierD_gating (w : WarehouseContext) (today : ℤ) (c : CustomerProfile)
    (hD : c.quality_tier = QualityTier.D) (hlvl : w.emergency_level ≠ 5) :
    (determine_email_type w today c).1.category ≠ Category.debt := by
  have hc : w.is_critical = false := not_critical_false w hlvl
  have hel : (is_eligible_for_solicitation w today c).1 = false :=
    tierD_not_eligible w today c hD hlvl
  simp only [determine_email_type]
  split_ifs with h1 h2 h3 h4 h5 h6 <;>
    first
      | (show (select_credit_email today c).category ≠ Category.debt
         rw [select_credit_email_category]
         decide)
      | simp_all [EmailType.category]

/-- Witness for `C5_tierD_gating` at a concrete tier-D customer and the
non-critical warehouse `w_normal`. -/
theorem C5_witness :
    (determine_email_type w_normal 100 c_tierD).1.category ≠ Category.debt :=
  C5_tierD_gating w_normal 100 c_tierD rfl (by decide)

/- ------------------------------------------------------------------
   C6: credit-first override
   ------------------------------------------------------------------ -/

/-- Claim C6: any customer with engagement balance −25 and 20 days since the
last email, under any non-critical warehouse, is classified GIFT_POINTS — a
credit-category type, never a debt one. -/
theorem C6_credit_first_override (w : WarehouseContext) (today : ℤ) (c : CustomerProfile)
    (hb : c.engagement_balance = -25) (hd : c.days_since_last_email = 20)
    (hlvl : w.emergency_level ≠ 5) :
    (determine_email_type w today c).1 = EmailType.GIFT_POINTS ∧
    (determine_email_type w today c).1.category = Category.credit := by
  have hc : w.is_critical = false := not_critical_false w hlvl
  have hnc : (needs_credit_first today c).1 = true := by
    simp [needs_credit_first, hb]
  have hsel : select_credit_email today c = EmailType.GIFT_POINTS := by
    simp [select_credit_email, hb]
  have hmain : (determine_email_type w today c).1 = EmailType.GIFT_POINTS := by
    simp only [determine_email_type]
    simp [hd, hnc, hc, hsel]
  exact ⟨hmain, by rw [hmain]; rfl⟩

/-- Witness for `C6_credit_first_override` at `c_neg25` under `w_normal`. -/
theorem C6_witness :
    (determine_email_type w_normal 100 c_neg25).1 = EmailType.GIFT_POINTS ∧
    (determine_email_type w_normal 100 c_neg25).1.category = Category.credit :=
  C6_credit_first_override w_normal 100 c_neg25 rfl rfl (by decide)

theorem balance_clamp (x : ℚ) :
    max 0 (min 30 (x * 30)) = min (max x 0) 1 * 30 := by
  rcases le_total x 0 with h | h <;> rcases le_total x 1 with h1 | h1 <;>
    simp [max_def, min_def] <;> split_ifs <;> linarith

theorem priority_weight_nonneg (t : QualityTier) : 0 ≤ t.priority_weight := by
  cases t <;> norm_num [QualityTier.priority_weight]

theorem priority_weight_le_one (t : QualityTier) : t.priority_weight ≤ 1 := by
  cases t <;> norm_num [QualityTier.priority_weight]

theorem round2_nonneg (q : ℚ) (h : 0 ≤ q) : 0 ≤ round2 q := by
  unfold round2
  apply div_nonneg _ (by norm_num)
  have hf : (0 : ℤ) ≤ round (q * 100) := by
    rw [round_eq]
    exact Int.le_floor.mpr (by push_cast; linarith)
  exact_mod_cast hf

theorem round2_le_100 (q : ℚ) (h : q ≤ 100) : round2 q ≤ 100 := by
  unfold round2
  rw [div_le_iff₀ (by norm_num : (0:ℚ) < 100)]
  have hf : round (q * 100) ≤ 10000 := by
    rw [round_eq]
    have : ⌊q * 100 + 1 / 2⌋ < 10001 := by
      rw [Int.floor_lt]
      push_cast
      linarith
    omega
  calc ((round (q * 100) : ℤ) : ℚ) ≤ ((10000 : ℤ) : ℚ) := by exact_mod_cast hf
    _ = 100 * 100 := by norm_num

theorem priority_score_eq_spec (c : CustomerProfile) :
    calculate_priority_score c = spec_priority_score c := by
  have hbal := balance_clamp (((c.engagement_balance : ℚ) + 50) / 100)
  simp only [calculate_priority_score, spec_priority_score, clamp01]
  congr 1
  rw [hbal, zero_add]

/-- Claim C8: for open/response rates in [0,1], non-negative dormancy and
non-negative transaction amounts, the ranker's score equals the spec's
clamped weighted-sum formula rounded to 2 decimals, and lies in [0, 100]. -/
theorem C8_priority_score_bounds (c : CustomerProfile)
    (ho0 : 0 ≤ c.open_rate) (ho1 : c.open_rate ≤ 1)
    (hr0 : 0 ≤ c.response_rate) (hr1 : c.response_rate ≤ 1)
    (hdy : 0 ≤ c.days_since_last_email)
    (hba : 0 ≤ c.total_buyback_amount) (hpa : 0 ≤ c.total_purchase_amount) :
    calculate_priority_score c = spec_priority_score c ∧
    0 ≤ calculate_priority_score c ∧ calculate_priority_score c ≤ 100 := by
  have hT1 : (0:ℚ) ≤ max 0 (min 30 (((c.engagement_balance : ℚ) + 50) / 100 * 30)) :=
    le_max_left _ _
  have hT1' : max 0 (min 30 (((c.engagement_balance : ℚ) + 50) / 100 * 30)) ≤ 30 :=
    max_le (by norm_num) (min_le_left _ _)
  have hT2 : (0:ℚ) ≤ c.quality_tier.priority_weight * 25 :=
    mul_nonneg (priority_weight_nonneg _) (by norm_num)
  have hT2' : c.quality_tier.priority_weight * 25 ≤ 25 := by
    have := priority_weight_le_one c.quality_tier
    nlinarith
  have hdq : (0:ℚ) ≤ (c.days_since_last_email : ℚ) / 60 :=
    div_nonneg (by exact_mod_cast hdy) (by norm_num)
  have hT3 : (0:ℚ) ≤ min ((c.days_since_last_email : ℚ) / 60) 1.0 :=
    le_min hdq (by norm_num)
  have hT3' : min ((c.days_since_last_email : ℚ) / 60) 1.0 ≤ 1 := by
    refine (min_le_right _ _).trans (by norm_num)
  have hlq : (0:ℚ) ≤ ((c.total_buyback_amount : ℚ) + (c.total_purchase_amount : ℚ)) / 500000 := by
    apply div_nonneg _ (by norm_num)
    have hb' : (0:ℚ) ≤ (c.total_buyback_amount : ℚ) := by exact_mod_cast hba
    have hp' : (0:ℚ) ≤ (c.total_purchase_amount : ℚ) := by exact_mod_cast hpa
    linarith
  have hT5 : (0:ℚ) ≤ min (((c.total_buyback_amount : ℚ) + (c.total_purchase_amount : ℚ)) / 500000) 1.0 :=
    le_min hlq (by norm_num)
  have hT5' : min (((c.total_buyback_amount : ℚ) + (c.total_purchase_amount : ℚ)) / 500000) 1.0 ≤ 1 := by
    refine (min_le_right _ _).trans (by norm_num)
  refine ⟨priority_score_eq_spec c, ?_, ?_⟩
  · simp only [calculate_priority_score]
    apply round2_nonneg
    linarith
  · simp only [calculate_priority_score]
    apply round2_le_100
    linarith

/-- Witness for `C8_priority_score_bounds` at the concrete customer
`c_tierD` (rates 0.5, dormancy 30 days, LTV 100000). -/
theorem C8_witness :
    calculate_priority_score c_tierD = spec_priority_score c_tierD ∧
    0 ≤ calculate_priority_score c_tierD ∧ calculate_priority_score c_tierD ≤ 100 :=
  C8_priority_score_bounds c_tierD (by norm_num [c_tierD]) (by norm_num [c_tierD])
    (by norm_num [c_tierD]) (by norm_num [c_tierD]) (by norm_num [c_tierD])
    (by norm_num [c_tierD]) (by norm_num [c_tierD])

theorem mkDecision_customer (w : WarehouseContext) (today : ℤ) (c : CustomerProfile) :
    (mkDecision w today c).customer = c := by
  simp only [mkDecision]
  split_ifs <;> rfl

theorem mkDecision_email_type (w : WarehouseContext) (today : ℤ) (c : CustomerProfile) :
    (mkDecision w today c).email_type = (determine_email_type w today c).1 := by
  simp only [mkDecision]
  split_ifs <;> rfl

theorem mkDecision_skip_fields (w : WarehouseContext) (today : ℤ) (c : CustomerProfile)
    (h : (mkDecision w today c).email_type = EmailType.SKIP) :
    (mkDecision w today c).priority_score = 0 ∧
    (mkDecision w today c).balance_after = c.engagement_balance := by
  rw [mkDecision_email_type] at h
  simp only [mkDecision]
  split_ifs
  exact ⟨rfl, rfl⟩

theorem mkDecision_send_balance (w : WarehouseContext) (today : ℤ) (c : CustomerProfile)
    (h : (mkDecision w today c).email_type ≠ EmailType.SKIP) :
    (mkDecision w today c).balance_after =
      c.engagement_balance + (mkDecision w today c).email_type.balance_impact := by
  rw [mkDecision_email_type] at h ⊢
  simp only [mkDecision]
  split_ifs with h1 h2 <;> first
    | exact absurd h1 h
    | rfl

theorem length_insert_desc (x : EmailDecision) (l : List EmailDecision) :
    (insert_desc x l).length = l.length + 1 := by
  induction l with
  | nil => rfl
  | cons y ys ih =>
    unfold insert_desc
    split_ifs <;> simp [ih]

theorem mem_insert_desc (x y : EmailDecision) (l : List EmailDecision) :
    y ∈ insert_desc x l ↔ y = x ∨ y ∈ l := by
  induction l with
  | nil => simp [insert_desc]
  | cons z zs ih =>
    unfold insert_desc
    split_ifs <;> simp [ih] <;> tauto

theorem sort_desc_go_length (l : List EmailDecision) :
    ∀ acc : List EmailDecision,
      (l.foldl (fun acc x => insert_desc x acc) acc).length = acc.length + l.length := by
  induction l with
  | nil => simp
  | cons x xs ih =>
    intro acc
    simp only [List.foldl_cons, List.length_cons]
    rw [ih, length_insert_desc]
    omega

theorem length_sort_desc (l : List EmailDecision) : (sort_desc l).length = l.length := by
  unfold sort_desc
  rw [sort_desc_go_length]
  simp

theorem sort_desc_go_mem (l : List EmailDecision) :
    ∀ (acc : List EmailDecision) (y : EmailDecision),
      y ∈ l.foldl (fun acc x => insert_desc x acc) acc ↔ y ∈ acc ∨ y ∈ l := by
  induction l with
  | nil => simp
  | cons x xs ih =>
    intro acc y
    simp only [List.foldl_cons]
    rw [ih, mem_insert_desc]
    simp
    tauto

theorem mem_sort_desc (y : EmailDecision) (l : List EmailDecision) :
    y ∈ sort_desc l ↔ y ∈ l := by
  unfold sort_desc
  rw [sort_desc_go_mem]
  simp

/- ------------------------------------------------------------------
   C4: allocator budget respect
   ------------------------------------------------------------------ -/

theorem countDebt_filter (b : Budget) (ds : List EmailDecision) :
    ∀ dc cc : ℤ, dc ≤ b.debt_budget →
      (countDebt (filter_by_budget b dc cc ds) : ℤ) + dc ≤ b.debt_budget := by
  induction ds with
  | nil =>
    intro dc cc h
    simpa [filter_by_budget, countDebt] using h
  | cons d rest ih =>
    intro dc cc h
    unfold filter_by_budget
    split_ifs with h1 h2 h3 h4 h5 h6
    · have hne : d.email_type.category ≠ Category.debt := by
        rw [h1]
        decide
      simp only [countDebt, if_neg hne]
      have := ih dc cc h
      omega
    · simp only [countDebt, if_pos h2]
      have := ih (dc + 1) cc (by omega)
      omega
    · have hne : (demote_debt d).email_type.category ≠ Category.debt := by
        simp [demote_debt, EmailType.category]
      simp only [countDebt, if_neg hne]
      have := ih dc cc h
      omega
    · have hne : d.email_type.category ≠ Category.debt := by
        rw [h4]
        decide
      simp only [countDebt, if_neg hne]
      have := ih dc (cc + 1) h
      omega
    · have hne : (demote_credit d).email_type.category ≠ Category.debt := by
        simp [demote_credit, EmailType.category]
      simp only [countDebt, if_neg hne]
      have := ih dc cc h
      omega
    · simp only [countDebt, if_neg h2]
      have := ih dc cc h
      omega
    · exact ih dc cc h

theorem countCredit_filter (b : Budget) (ds : List EmailDecision) :
    ∀ dc cc : ℤ, cc ≤ b.credit_budget →
      (countCredit (filter_by_budget b dc cc ds) : ℤ) + cc ≤ b.credit_budget := by
  induction ds with
  | nil =>
    intro dc cc h
    simpa [filter_by_budget, countCredit] using h
  | cons d rest ih =>
    intro dc cc h
    unfold filter_by_budget
    split_ifs with h1 h2 h3 h4 h5 h6
    · have hne : d.email_type.category ≠ Category.credit := by
        rw [h1]
        decide
      simp only [countCredit, if_neg hne]
      have := ih dc cc h
      omega
    · have hne : d.email_type.category ≠ Category.credit := by
        rw [h2]
        decide
      simp only [countCredit, if_neg hne]
      have := ih (dc + 1) cc h
      omega
    · have hne : (demote_debt d).email_type.category ≠ Category.credit := by
        simp [demote_debt, EmailType.category]
      simp only [countCredit, if_neg hne]
      have := ih dc cc h
      omega
    · simp only [countCredit, if_pos h4]
      have := ih dc (cc + 1) (by omega)
      omega
    · have hne : (demote_credit d).email_type.category ≠ Category.credit := by
        simp [demote_credit, EmailType.category]
      simp only [countCredit, if_neg hne]
      have := ih dc cc h
      omega
    · simp only [countCredit, if_neg h4]
      have := ih dc cc h
      omega
    · exact ih dc cc h

/-- Claim C4: after allocation, the number of admitted (non-SKIP)
debt-category decisions is at most the debt budget, and the number of
admitted credit-category decisions is at most the credit budget. -/
theorem C4_allocator_budget_respect (w : WarehouseContext) (today : ℤ)
    (customers : List CustomerProfile) (b : Budget)
    (hdb : 0 ≤ b.debt_budget) (hcb : 0 ≤ b.credit_budget) :
    (countDebt (build_priority_queue w today customers b) : ℤ) ≤ b.debt_budget ∧
    (countCredit (build_priority_queue w today customers b) : ℤ) ≤ b.credit_budget := by
  unfold build_priority_queue
  constructor
  · have := countDebt_filter b (sort_desc (customers.map (mkDecision w today))) 0 0 hdb
    omega
  · have := countCredit_filter b (sort_desc (customers.map (mkDecision w today))) 0 0 hcb
    omega

theorem det_promo : determine_email_type w_slack 100 cP9 =
    (EmailType.PURCHASE_PROMO, "購入傾向の顧客") := by
  decide

theorem det_kaitori : determine_email_type w_slack 100 cD9 =
    (EmailType.NORMAL_KAITORI, "閑散期のため買取促進") := by
  decide

theorem det_news : (determine_email_type w_slack 100 cC9).1 = EmailType.NEWS_STORY := by
  decide

theorem score_promo : calculate_priority_score cP9 = 100 := by
  have hq : cP9.quality_tier = QualityTier.A := rfl
  simp only [calculate_priority_score, cP9, hq, QualityTier.priority_weight]
  norm_num [round2, round_eq]

theorem score_kaitori : calculate_priority_score cD9 = 62.5 := by
  have hq : cD9.quality_tier = QualityTier.A := rfl
  simp only [calculate_priority_score, cD9, hq, QualityTier.priority_weight]
  norm_num [round2, round_eq]

theorem score_news : calculate_priority_score cC9 = 56 := by
  have hq : cC9.quality_tier = QualityTier.A := rfl
  simp only [calculate_priority_score, cC9, hq, QualityTier.priority_weight]
  norm_num [round2, round_eq]

theorem type_promo : (mkDecision w_slack 100 cP9).email_type = EmailType.PURCHASE_PROMO := by
  rw [mkDecision_email_type, det_promo]

theorem type_kaitori : (mkDecision w_slack 100 cD9).email_type = EmailType.NORMAL_KAITORI := by
  rw [mkDecision_email_type, det_kaitori]

theorem type_news : (mkDecision w_slack 100 cC9).email_type = EmailType.NEWS_STORY := by
  rw [mkDecision_email_type, det_news]

theorem prio_promo : (mkDecision w_slack 100 cP9).priority_score = 100 := by
  have hq : cP9.quality_tier = QualityTier.A := rfl
  have hem : w_slack.is_emergency = false := by decide
  simp [mkDecision, det_promo, hem, hq, QualityTier.priority_weight, score_promo]
  norm_num

theorem prio_kaitori : (mkDecision w_slack 100 cD9).priority_score = 62.5 := by
  have hq : cD9.quality_tier = QualityTier.A := rfl
  have hem : w_slack.is_emergency = false := by decide
  simp [mkDecision, det_kaitori, hem, hq, QualityTier.priority_weight, score_kaitori]
  norm_num

theorem prio_news : (mkDecision w_slack 100 cC9).priority_score = 56 := by
  have hq : cC9.quality_tier = QualityTier.A := rfl
  have hem : w_slack.is_emergency = false := by decide
  have hne : (determine_email_type w_slack 100 cC9).1 ≠ EmailType.SKIP := by decide
  simp [mkDecision, det_news, hem, hq, hne, QualityTier.priority_weight, score_news]
  norm_num

theorem sort_eval :
    sort_desc [mkDecision w_slack 100 cC9, mkDecision w_slack 100 cD9, mkDecision w_slack 100 cP9] =
      [mkDecision w_slack 100 cP9, mkDecision w_slack 100 cD9, mkDecision w_slack 100 cC9] := by
  have hCD : (mkDecision w_slack 100 cC9).priority_score <
      (mkDecision w_slack 100 cD9).priority_score := by
    rw [prio_news, prio_kaitori]
    norm_num
  have hDP : (mkDecision w_slack 100 cD9).priority_score <
      (mkDecision w_slack 100 cP9).priority_score := by
    rw [prio_kaitori, prio_promo]
    norm_num
  have s1 : insert_desc (mkDecision w_slack 100 cD9) [mkDecision w_slack 100 cC9] =
      [mkDecision w_slack 100 cD9, mkDecision w_slack 100 cC9] := by
    unfold insert_desc
    rw [if_pos hCD]
  have s2 : insert_desc (mkDecision w_slack 100 cP9)
      [mkDecision w_slack 100 cD9, mkDecision w_slack 100 cC9] =
      [mkDecision w_slack 100 cP9, mkDecision w_slack 100 cD9, mkDecision w_slack 100 cC9] := by
    unfold insert_desc
    rw [if_pos hDP]
  unfold sort_desc
  simp only [List.foldl_cons, List.foldl_nil]
  rw [show insert_desc (mkDecision w_slack 100 cC9) ([] : List EmailDecision) =
    [mkDecision w_slack 100 cC9] from rfl, s1, s2]

theorem filter_eval9 :
    filter_by_budget b9 0 0 [mkDecision w_slack 100 cP9, mkDecision w_slack 100 cD9,
      mkDecision w_slack 100 cC9] =
    [mkDecision w_slack 100 cP9, mkDecision w_slack 100 cD9, mkDecision w_slack 100 cC9] := by
  simp only [filter_by_budget, type_promo, type_kaitori, type_news, EmailType.category, b9]
  simp

theorem queue9_eval :
    build_priority_queue w_slack 100 [cC9, cD9, cP9] b9 =
    [mkDecision w_slack 100 cP9, mkDecision w_slack 100 cD9, mkDecision w_slack 100 cC9] := by
  unfold build_priority_queue
  simp only [List.map]
  rw [sort_eval, filter_eval9]

/- ------------------------------------------------------------------
   C9: neutral admissions are uncounted
   ------------------------------------------------------------------ -/

/-- Claim C9 (implicit): admitting a neutral decision bumps neither counter,
so the allocator can admit more than totalBudget non-SKIP decisions: with
total budget 2 (debt 1, credit 1) and three candidates (one neutral, one
debt, one credit) it admits all three. -/
theorem C9_neutral_uncounted_overflow :
    b9.total_budget = 2 ∧
    countSend (build_priority_queue w_slack 100 [cC9, cD9, cP9] b9) = 3 ∧
    b9.total_budget <
      (countSend (build_priority_queue w_slack 100 [cC9, cD9, cP9] b9) : ℤ) := by
  rw [queue9_eval]
  refine ⟨rfl, ?_, ?_⟩ <;>
    simp [countSend, type_promo, type_kaitori, type_news, b9]

/- ------------------------------------------------------------------
   C3: allocator output completeness
   ------------------------------------------------------------------ -/

theorem filter_by_budget_length_le (b : Budget) (ds : List EmailDecision) :
    ∀ dc cc : ℤ, (filter_by_budget b dc cc ds).length ≤ ds.length := by
  induction ds with
  | nil =>
    intro dc cc
    simp [filter_by_budget]
  | cons d rest ih =>
    intro dc cc
    unfold filter_by_budget
    split_ifs with h1 h2 h3 h4 h5 h6
    · have := ih dc cc
      simp only [List.length_cons]
      omega
    · have := ih (dc + 1) cc
      simp only [List.length_cons]
      omega
    · have := ih dc cc
      simp only [List.length_cons]
      omega
    · have := ih dc (cc + 1)
      simp only [List.length_cons]
      omega
    · have := ih dc cc
      simp only [List.length_cons]
      omega
    · have := ih dc cc
      simp only [List.length_cons]
      omega
    · have := ih dc cc
      simp only [List.length_cons]
      omega

theorem filter_by_budget_length_eq (b : Budget) :
    ∀ ds : List EmailDecision,
      (∀ d ∈ ds, d.email_type.category = Category.neutral → d.email_type = EmailType.SKIP) →
      ∀ dc cc : ℤ, (filter_by_budget b dc cc ds).length = ds.length := by
  intro ds
  induction ds with
  | nil =>
    intro _ dc cc
    simp [filter_by_budget]
  | cons d rest ih =>
    intro hneu dc cc
    have hrest : ∀ d' ∈ rest, d'.email_type.category = Category.neutral →
        d'.email_type = EmailType.SKIP :=
      fun d' hd' => hneu d' (List.mem_cons_of_mem _ hd')
    unfold filter_by_budget
    split_ifs with h1 h2 h3 h4 h5 h6
    · simp [ih hrest dc cc]
    · simp [ih hrest (dc + 1) cc]
    · simp [ih hrest dc cc]
    · simp [ih hrest dc (cc + 1)]
    · simp [ih hrest dc cc]
    · simp [ih hrest dc cc]
    · exfalso
      have hcat : d.email_type.category = Category.neutral := by
        cases hc : d.email_type.category
        · exact absurd hc h2
        · exact absurd hc h4
        · rfl
      exact h1 (hneu d (List.mem_cons_self _ _) hcat)

/-- Claim C3 (amended): the allocator emits exactly one decision per input
candidate as long as no candidate carries a non-SKIP neutral-category type —
over-budget debt/credit candidates are demoted to SKIP but kept.  (The
original claim fails: over-budget non-SKIP neutral candidates are dropped,
see the counterexample.) -/
theorem C3_output_completeness (w : WarehouseContext) (today : ℤ)
    (customers : List CustomerProfile) (b : Budget)
    (hneu : ∀ c ∈ customers, (determine_email_type w today c).1.category = Category.neutral →
      (determine_email_type w today c).1 = EmailType.SKIP) :
    (build_priority_queue w today customers b).length = customers.length := by
  unfold build_priority_queue
  have hds : ∀ d ∈ sort_desc (customers.map (mkDecision w today)),
      d.email_type.category = Category.neutral → d.email_type = EmailType.SKIP := by
    intro d hd
    rw [mem_sort_desc] at hd
    rcases List.mem_map.mp hd with ⟨c, hc, rfl⟩
    rw [mkDecision_email_type]
    exact hneu c hc
  rw [filter_by_budget_length_eq b _ hds 0 0, length_sort_desc, List.length_map]

/-- Claim C3 counterexample: one PURCHASE_PROMO (neutral, non-SKIP) candidate
and a zero total budget — the candidate is silently dropped, so the output
has no entry for it at all. -/
theorem C3_counterexample :
    (build_priority_queue w_slack 100 [cP9] b0).length ≠
      ([cP9] : List CustomerProfile).length := by
  unfold build_priority_queue
  simp only [List.map]
  rw [show sort_desc [mkDecision w_slack 100 cP9] = [mkDecision w_slack 100 cP9] from rfl]
  simp only [filter_by_budget, type_promo, EmailType.category, b0]
  simp

/-- Witness for `C3_output_completeness`: a credit and a debt candidate,
none neutral, are both kept. -/
theorem C3_witness :
    (build_priority_queue w_slack 100 [cC9, cD9] b9).length =
      ([cC9, cD9] : List CustomerProfile).length :=
  C3_output_completeness w_slack 100 [cC9, cD9] b9 (by
    intro c hc
    simp only [List.mem_cons, List.not_mem_nil, or_false] at hc
    rcases hc with rfl | rfl
    · decide
    · decide)

/-- Witness for `C4_allocator_budget_respect` at the three-candidate
scenario and budget `b9`. -/
theorem C4_witness :
    (countDebt (build_priority_queue w_slack 100 [cC9, cD9, cP9] b9) : ℤ) ≤ b9.debt_budget ∧
    (countCredit (build_priority_queue w_slack 100 [cC9, cD9, cP9] b9) : ℤ) ≤ b9.credit_budget :=
  C4_allocator_budget_respect w_slack 100 [cC9, cD9, cP9] b9 (by decide) (by decide)

/- ------------------------------------------------------------------
   C10: demotion rewrites only type and reason
   ------------------------------------------------------------------ -/

theorem mem_filter_by_budget (b : Budget) :
    ∀ (ds : List EmailDecision) (dc cc : ℤ) (e : EmailDecision),
      e ∈ filter_by_budget b dc cc ds →
      e ∈ ds ∨ ∃ d ∈ ds,
        (d.email_type.category = Category.debt ∧ e = demote_debt d) ∨
        (d.email_type.category = Category.credit ∧ e = demote_credit d) := by
  intro ds
  induction ds with
  | nil =>
    intro dc cc e he
    simp [filter_by_budget] at he
  | cons d rest ih =>
    intro dc cc e he
    unfold filter_by_budget at he
    split_ifs at he with h1 h2 h3 h4 h5 h6
    · rcases List.mem_cons.mp he with rfl | hrest
      · exact Or.inl (List.mem_cons_self _ _)
      · rcases ih dc cc e hrest with h | ⟨d', hd', hcase⟩
        · exact Or.inl (List.mem_cons_of_mem _ h)
        · exact Or.inr ⟨d', List.mem_cons_of_mem _ hd', hcase⟩
    · rcases List.mem_cons.mp he with rfl | hrest
      · exact Or.inl (List.mem_cons_self _ _)
      · rcases ih (dc + 1) cc e hrest with h | ⟨d', hd', hcase⟩
        · exact Or.inl (List.mem_cons_of_mem _ h)
        · exact Or.inr ⟨d', List.mem_cons_of_mem _ hd', hcase⟩
    · rcases List.mem_cons.mp he with rfl | hrest
      · exact Or.inr ⟨d, List.mem_cons_self _ _, Or.inl ⟨h2, rfl⟩⟩
      · rcases ih dc cc e hrest with h | ⟨d', hd', hcase⟩
        · exact Or.inl (List.mem_cons_of_mem _ h)
        · exact Or.inr ⟨d', List.mem_cons_of_mem _ hd', hcase⟩
    · rcases List.mem_cons.mp he with rfl | hrest
      · exact Or.inl (List.mem_cons_self _ _)
      · rcases ih dc (cc + 1) e hrest with h | ⟨d', hd', hcase⟩
        · exact Or.inl (List.mem_cons_of_mem _ h)
        · exact Or.inr ⟨d', List.mem_cons_of_mem _ hd', hcase⟩
    · rcases List.mem_cons.mp he with rfl | hrest
      · exact Or.inr ⟨d, List.mem_cons_self _ _, Or.inr ⟨h4, rfl⟩⟩
      · rcases ih dc cc e hrest with h | ⟨d', hd', hcase⟩
        · exact Or.inl (List.mem_cons_of_mem _ h)
        · exact Or.inr ⟨d', List.mem_cons_of_mem _ hd', hcase⟩
    · rcases List.mem_cons.mp he with rfl | hrest
      · exact Or.inl (List.mem_cons_self _ _)
      · rcases ih dc cc e hrest with h | ⟨d', hd', hcase⟩
        · exact Or.inl (List.mem_cons_of_mem _ h)
        · exact Or.inr ⟨d', List.mem_cons_of_mem _ hd', hcase⟩
    · rcases ih dc cc e he with h | ⟨d', hd', hcase⟩
      · exact Or.inl (List.mem_cons_of_mem _ h)
      · exact Or.inr ⟨d', List.mem_cons_of_mem _ hd', hcase⟩

/-- Claim C10: every SKIP decision in the allocator's output is either a
classification-time SKIP — kept verbatim, with priority score 0 and
balance_after equal to the unchanged engagement balance — or a demotion,
which rewrote only the email type and reason of the pre-demotion decision
(`demote_debt`/`demote_credit`), keeping its priority score and its
balance_after of engagement balance plus the demoted type's impact. -/
theorem C10_demotion_frame (w : WarehouseContext) (today : ℤ)
    (customers : List CustomerProfile) (b : Budget) (e : EmailDecision)
    (he : e ∈ build_priority_queue w today customers b)
    (hskip : e.email_type = EmailType.SKIP) :
    (e = mkDecision w today e.customer ∧ e.priority_score = 0 ∧
      e.balance_after = e.customer.engagement_balance) ∨
    ((e = demote_debt (mkDecision w today e.customer) ∨
        e = demote_credit (mkDecision w today e.customer)) ∧
      e.priority_score = (mkDecision w today e.customer).priority_score ∧
      e.balance_after = e.customer.engagement_balance +
        (mkDecision w today e.customer).email_type.balance_impact) := by
  unfold build_priority_queue at he
  rcases mem_filter_by_budget b _ 0 0 e he with hmem | ⟨d, hd, hcase⟩
  · rw [mem_sort_desc] at hmem
    rcases List.mem_map.mp hmem with ⟨c, _, rfl⟩
    left
    have hc := mkDecision_customer w today c
    rw [hc]
    rcases mkDecision_skip_fields w today c hskip with ⟨hp, hb⟩
    exact ⟨rfl, hp, hb⟩
  · rw [mem_sort_desc] at hd
    rcases List.mem_map.mp hd with ⟨c, _, rfl⟩
    right
    rcases hcase with ⟨hcat, rfl⟩ | ⟨hcat, rfl⟩
    · have hcust : (demote_debt (mkDecision w today c)).customer = c := by
        rw [show (demote_debt (mkDecision w today c)).customer =
          (mkDecision w today c).customer from rfl, mkDecision_customer]
      have hne : (mkDecision w today c).email_type ≠ EmailType.SKIP := by
        intro hEq
        rw [hEq] at hcat
        exact absurd hcat (by decide)
      rw [hcust]
      refine ⟨Or.inl rfl, rfl, ?_⟩
      rw [show (demote_debt (mkDecision w today c)).balance_after =
        (mkDecision w today c).balance_after from rfl]
      exact mkDecision_send_balance w today c hne
    · have hcust : (demote_credit (mkDecision w today c)).customer = c := by
        rw [show (demote_credit (mkDecision w today c)).customer =
          (mkDecision w today c).customer from rfl, mkDecision_customer]
      have hne : (mkDecision w today c).email_type ≠ EmailType.SKIP := by
        intro hEq
        rw [hEq] at hcat
        exact absurd hcat (by decide)
      rw [hcust]
      refine ⟨Or.inr rfl, rfl, ?_⟩
      rw [show (demote_credit (mkDecision w today c)).balance_after =
        (mkDecision w today c).balance_after from rfl]
      exact mkDecision_send_balance w today c hne

theorem filter_eval10 :
    filter_by_budget b10 0 0 [mkDecision w_slack 100 cP9, mkDecision w_slack 100 cD9,
      mkDecision w_slack 100 cC9] =
    [mkDecision w_slack 100 cP9, demote_debt (mkDecision w_slack 100 cD9),
      mkDecision w_slack 100 cC9] := by
  simp only [filter_by_budget, type_promo, type_kaitori, type_news, EmailType.category, b10]
  simp

theorem queue10_eval :
    build_priority_queue w_slack 100 [cC9, cD9, cP9] b10 =
    [mkDecision w_slack 100 cP9, demote_debt (mkDecision w_slack 100 cD9),
      mkDecision w_slack 100 cC9] := by
  unfold build_priority_queue
  simp only [List.map]
  rw [sort_eval, filter_eval10]

/-- Witness for `C10_demotion_frame` at the demoted debt decision of the
budget-`b10` scenario. -/
theorem C10_witness :
    (demote_debt (mkDecision w_slack 100 cD9) =
        mkDecision w_slack 100 (demote_debt (mkDecision w_slack 100 cD9)).customer ∧
      (demote_debt (mkDecision w_slack 100 cD9)).priority_score = 0 ∧
      (demote_debt (mkDecision w_slack 100 cD9)).balance_after =
        (demote_debt (mkDecision w_slack 100 cD9)).customer.engagement_balance) ∨
    ((demote_debt (mkDecision w_slack 100 cD9) =
        demote_debt (mkDecision w_slack 100 (demote_debt (mkDecision w_slack 100 cD9)).customer) ∨
      demote_debt (mkDecision w_slack 100 cD9) =
        demote_credit (mkDecision w_slack 100 (demote_debt (mkDecision w_slack 100 cD9)).customer)) ∧
      (demote_debt (mkDecision w_slack 100 cD9)).priority_score =
        (mkDecision w_slack 100 (demote_debt (mkDecision w_slack 100 cD9)).customer).priority_score ∧
      (demote_debt (mkDecision w_slack 100 cD9)).balance_after =
        (demote_debt (mkDecision w_slack 100 cD9)).customer.engagement_balance +
        (mkDecision w_slack 100
          (demote_debt (mkDecision w_slack 100 cD9)).customer).email_type.balance_impact) :=
  C10_demotion_frame w_slack 100 [cC9, cD9, cP9] b10 (demote_debt (mkDecision w_slack 100 cD9))
    (by rw [queue10_eval]; simp) rfl
